import Mathlib

/-!
Shallow embedding of `src/workflow_checkpoint_recovery.py` (the checkpointed
workflow execution engine of the nano-agent repository), together with theorems
settling the specification's claims about it.

Modelling conventions:
* Python dataclasses become structures; machine-irrelevant wall-clock fields
  (`timestamp`, `execution_time`, `duration`) are omitted, since no control flow
  reads them.
* The checkpoint directory becomes a `Store`: an association list from the file
  key to the stored record.  The file name is `step_{n}_state.json`
  (lines 111 and 125 of the source), so the key is the step number alone.
* `hashlib.sha256(json.dumps(state_data, sort_keys=True))` is modelled as an
  abstract digest function `h : StateData → String` applied to the canonical
  (key-sorted) form of the hashed dictionary; `encodeState` below is a concrete
  executable instance used by witnesses.
* The body of the `try` block of `execute_step` (the dispatch to the step's
  executor, simulated at lines 188-224) is abstracted as an oracle
  `ExecOracle`; the concrete simulation of the source is `mockExec`.
* A Python exception escaping a function is an `Except.error`; the only one the
  engine can actually raise is the `UnboundLocalError` of
  `recover_from_failure` (line 259), modelled by `PyError.unboundLocal`.
-/

namespace WCR

/-- StepStatus enum (source lines 17-22). -/
inductive StepStatus where
  | pending
  | in_progress
  | completed
  | failed
  | recovered
deriving DecidableEq, Repr

/-- RecoveryStrategy enum (source lines 25-29). -/
inductive RecoveryStrategy where
  | checkpoint_recovery
  | retry_with_fallback
  | compensating_action
  | skip_and_continue
deriving DecidableEq, Repr

/-- A JSON-like value stored in the shared context dictionary.  The source only
ever stores strings and booleans there (lines 199-224). -/
inductive JsonVal where
  | str (s : String)
  | bool (b : Bool)
deriving DecidableEq, Repr

/-- The shared context dictionary `self.context : Dict[str, Any]`. -/
abbrev Ctx := List (String × JsonVal)

/-- Python dict assignment `ctx[k] = v`: overwrite in place if the key exists,
else append (insertion order preserved, as in CPython). -/
def ctxSet (ctx : Ctx) (k : String) (v : JsonVal) : Ctx :=
  if ctx.any (fun p => p.1 == k) then
    ctx.map (fun p => if p.1 == k then (k, v) else p)
  else
    ctx ++ [(k, v)]

/-- WorkflowStep dataclass (source lines 32-45).  The wall-clock fields
`timestamp` and `execution_time` are omitted (never read by control flow). -/
structure WorkflowStep where
  step_number : Nat
  name : String
  agent : String
  input_data : String
  expected_output : String
  status : StepStatus := .pending
  output : Option String := none
  error_message : Option String := none
  retry_count : Nat := 0
  checkpoint_saved : Bool := false
deriving DecidableEq, Repr

/-- CheckpointState dataclass (source lines 48-56), minus the wall-clock
`timestamp`. -/
structure CheckpointState where
  workflow_id : String
  step_number : Nat
  artifacts : List String
  context : Ctx
  completed_steps : List Nat
  integrity_hash : String
deriving DecidableEq, Repr

/-- RecoveryEvent dataclass (source lines 59-69), minus the wall-clock
`timestamp` and `duration`. -/
structure RecoveryEvent where
  event_id : String
  trigger : String
  strategy : RecoveryStrategy
  source_checkpoint : Nat
  success : Bool
  artifacts_recovered : List String
  compensating_actions : List String
deriving DecidableEq, Repr

/-- The mutable fields of a `WorkflowCheckpointRecovery` instance
(source lines 77-89), except the checkpoint directory, which is threaded
separately as a `Store`. -/
structure Engine where
  workflow_id : String
  steps : List WorkflowStep
  context : Ctx
  artifacts : List String
  recovery_events : List RecoveryEvent
  checkpoint_interval : Nat
  max_retries : Nat
  auto_recovery : Bool
deriving DecidableEq, Repr

/-- A freshly constructed engine (the `__init__` defaults, lines 77-89). -/
def mkEngine (workflow_id : String) (steps : List WorkflowStep) : Engine :=
  { workflow_id := workflow_id
    steps := steps
    context := []
    artifacts := []
    recovery_events := []
    checkpoint_interval := 1
    max_retries := 3
    auto_recovery := true }

/-- The checkpoint directory: an association list from the file key (the step
number, since files are named `step_{n}_state.json`) to the stored record.
Writes shadow earlier entries (last write wins). -/
abbrev Store := List (Nat × CheckpointState)

/-- Reading the file `step_{n}_state.json` from the directory. -/
def Store.lookup : Store → Nat → Option CheckpointState
  | [], _ => none
  | (k, cp) :: st, n => if k = n then some cp else Store.lookup st n

/-- Writing the file `step_{n}_state.json` (overwrites any prior record at
that key, exactly as `open(path, 'w')` does). -/
def Store.write (st : Store) (n : Nat) (cp : CheckpointState) : Store :=
  (n, cp) :: st

/-- Insertion sort used to model Python's `sorted` and
`json.dumps(..., sort_keys=True)`. -/
def insertSorted (le : α → α → Bool) (a : α) : List α → List α
  | [] => [a]
  | b :: bs => if le a b then a :: b :: bs else b :: insertSorted le a bs

/-- Sorting a list by a boolean comparison. -/
def sortBy (le : α → α → Bool) (l : List α) : List α :=
  l.foldr (insertSorted le) []

/-- The canonical form of the dictionary hashed by `_calculate_integrity_hash`
(source lines 150-155): `json.dumps(..., sort_keys=True)` renders the context
with sorted keys, and the artifacts list is `sorted(self.artifacts)`. -/
structure StateData where
  workflow_id : String
  context : List (String × JsonVal)
  artifacts : List String
deriving DecidableEq, Repr

/-- Builds the canonical hashed state (source lines 150-155): context key-sorted,
artifacts sorted. -/
def stateData (workflow_id : String) (context : Ctx) (artifacts : List String) :
    StateData :=
  { workflow_id := workflow_id
    context := sortBy (fun p q => decide (p.1 ≤ q.1)) context
    artifacts := sortBy (fun s t => decide (s ≤ t)) artifacts }

/-- Rendering of a context value, for the concrete digest instance below. -/
def JsonVal.render : JsonVal → String
  | .str s => "s:" ++ s
  | .bool b => "b:" ++ (if b then "true" else "false")

/-- A concrete, executable digest function standing in for
`hashlib.sha256(json.dumps(...)).hexdigest()[:16]`: an injective-enough
serialization of the canonical state, used to instantiate the abstract digest
parameter in witnesses and counterexamples.  The engine's logic only ever
compares digests for equality, so any deterministic function is faithful. -/
def encodeState (sd : StateData) : String :=
  sd.workflow_id ++ "|" ++
    String.join (sd.context.map (fun p => "<" ++ p.1 ++ "=" ++ p.2.render ++ ">")) ++
    "|" ++ String.join (sd.artifacts.map (fun a => "[" ++ a ++ "]"))

/-- `_calculate_integrity_hash` (source lines 148-156): the digest of the LIVE
engine state `{workflow_id, context, sorted(artifacts)}`.  `h` abstracts the
json+sha256 composition. -/
def calculate_integrity_hash (h : StateData → String) (e : Engine) : String :=
  h (stateData e.workflow_id e.context e.artifacts)

/-- The checkpoint record built by `save_checkpoint` (source lines 98-109):
completed steps are those whose status is exactly COMPLETED at save time. -/
def checkpointStateOf (h : StateData → String) (e : Engine) (step_number : Nat) :
    CheckpointState :=
  { workflow_id := e.workflow_id
    step_number := step_number
    artifacts := e.artifacts
    context := e.context
    completed_steps :=
      (e.steps.filter (fun s => s.status == .completed)).map (fun s => s.step_number)
    integrity_hash := calculate_integrity_hash h e }

/-- `save_checkpoint` (source lines 95-120).  `disk_ok` models whether the file
write at lines 112-113 succeeds; on an I/O exception the except branch prints
and returns `False`, leaving the directory unchanged. -/
def save_checkpoint (h : StateData → String) (disk_ok : Bool) (e : Engine)
    (step_number : Nat) (st : Store) : Store × Bool :=
  if disk_ok then
    (st.write step_number (checkpointStateOf h e step_number), true)
  else
    (st, false)

/-- `load_checkpoint` (source lines 122-146), value level: the returned value is
the parsed record at `step_{n}_state.json`, or None when the file is missing.
The integrity comparison at lines 136-139 only prints a warning and never
alters the returned value; it is modelled separately by
`load_integrity_warning`. -/
def load_checkpoint (st : Store) (step_number : Nat) : Option CheckpointState :=
  st.lookup step_number

/-- The integrity comparison performed inside `load_checkpoint`
(source lines 136-139): when the record exists, the warning printed is
`current_hash != checkpoint.integrity_hash`, where `current_hash` is
`_calculate_integrity_hash()` over the LIVE engine state (`self.context`,
`self.artifacts`), not over the loaded record's content. -/
def load_integrity_warning (h : StateData → String) (e : Engine)
    (step_number : Nat) (st : Store) : Option Bool :=
  (st.lookup step_number).map
    (fun cp => calculate_integrity_hash h e != cp.integrity_hash)

/-- `restore_from_checkpoint` (source lines 158-176).  The for-loop first
checks membership in `completed_steps` and only in the elif branch resets
later steps to PENDING, so a step listed in `completed_steps` keeps COMPLETED
status even when its index exceeds the checkpoint's.  The try block cannot
raise here, so the function always returns True. -/
def restore_from_checkpoint (e : Engine) (cp : CheckpointState) : Engine × Bool :=
  ({ e with
      context := cp.context
      artifacts := cp.artifacts
      steps := e.steps.map (fun s =>
        if cp.completed_steps.contains s.step_number then
          { s with status := .completed }
        else if cp.step_number < s.step_number then
          { s with status := .pending }
        else s) },
    true)

/-- Boolean prefix test on character lists. -/
def isPrefixB : List Char → List Char → Bool
  | [], _ => true
  | _ :: _, [] => false
  | p :: ps, c :: cs => p == c && isPrefixB ps cs

/-- Boolean substring test on character lists. -/
def hasSub (pat : List Char) : List Char → Bool
  | [] => isPrefixB pat []
  | c :: cs => isPrefixB pat (c :: cs) || hasSub pat cs

/-- Python's `pat in s` on strings: substring containment. -/
def strContains (s pat : String) : Bool :=
  hasSub pat.toList s.toList

/-- `_apply_compensating_actions` (source lines 311-336), expressed on the
failed step's error message.  At every engine call site the message is a string
(the except branch at line 241 set it just before recovery runs). -/
def apply_compensating_actions (error_message : String) : List String :=
  if strContains error_message "VALIDATION_ERROR" then
    ["input_format_validation", "specification_format_correction"]
  else if strContains error_message "TIMEOUT" then
    ["switch_to_fallback_agent", "reduce_complexity"]
  else if strContains error_message "DEPENDENCY" then
    ["regenerate_dependencies", "validate_prerequisites"]
  else
    []

/-- Outcome of dispatching a step to its executor: the body of the try block of
`execute_step` either raises, or succeeds producing an output string plus the
artifact appends and context writes of lines 196-224. -/
inductive ExecResult where
  | raises (msg : String)
  | succeeds (output : Option String) (new_artifacts : List String)
      (ctx_updates : List (String × JsonVal))
deriving DecidableEq, Repr

/-- True when the dispatch raised. -/
def ExecResult.isRaise : ExecResult → Bool
  | .raises _ => true
  | .succeeds _ _ _ => false

/-- The executor oracle: given the step number and the `simulate_failure` flag,
the outcome of the try-block body of `execute_step`. -/
abbrev ExecOracle := Nat → Bool → ExecResult

/-- The source's simulated executor (lines 188-224): raises VALIDATION_ERROR
for step 2 when `simulate_failure` is set, otherwise produces the mocked
output, artifact and context write for steps 1-6 (and nothing for other
numbers, whose `output` stays None). -/
def mockExec : ExecOracle := fun n simulate_failure =>
  if simulate_failure && n == 2 then
    .raises "VALIDATION_ERROR: Input file contains invalid specification format"
  else if n == 1 then
    .succeeds (some "CG_TDD_42.md - CSV export specification")
      ["CG_TDD_42.md"] [("feature", .str "csv_export")]
  else if n == 2 then
    .succeeds (some "CG_TDD_TESTS_42.md - Test specifications")
      ["CG_TDD_TESTS_42.md"] [("tests_planned", .bool true)]
  else if n == 3 then
    .succeeds (some "Implementation code - API routes and models")
      ["implementation_code"] [("implementation_complete", .bool true)]
  else if n == 4 then
    .succeeds (some "Security report - PASSED")
      ["security_report"] [("security_approved", .bool true)]
  else if n == 5 then
    .succeeds (some "Test results - ALL TESTS PASSING")
      ["test_results"] [("tests_passed", .bool true)]
  else if n == 6 then
    .succeeds (some "Pull request PR #43 created")
      ["pull_request"] [("pr_created", .bool true)]
  else
    .succeeds none [] []

/-- In-place update of the i-th list element, mirroring Python's mutation of
the shared step object held in `self.steps`. -/
def listUpdate (l : List α) (i : Nat) (f : α → α) : List α :=
  match l[i]? with
  | some a => l.set i (f a)
  | none => l

/-- Updates the i-th step of the engine in place. -/
def updStep (e : Engine) (i : Nat) (f : WorkflowStep → WorkflowStep) : Engine :=
  { e with steps := listUpdate e.steps i f }

/-- `execute_step` (source lines 178-245), acting on the step at index `i` of
`e.steps` (the Python code mutates that shared object).  `exec` abstracts the
try-block body; `disk_ok` models the checkpoint file write.  Sequence, as in
the source: status := IN_PROGRESS (183); dispatch; on success append artifacts
and write context keys (196-224), set output and status := COMPLETED (228),
then save a checkpoint when `step_number % checkpoint_interval == 0` (231-232)
and record the save result in `checkpoint_saved`; on an exception set
status := FAILED, error_message, and increment retry_count (240-242). -/
def execute_step (h : StateData → String) (exec : ExecOracle) (disk_ok : Bool)
    (e : Engine) (st : Store) (i : Nat) (simulate_failure : Bool) :
    Engine × Store × Bool :=
  match e.steps[i]? with
  | none => (e, st, true)
  | some step =>
    let e1 := updStep e i (fun s => { s with status := .in_progress })
    match exec step.step_number simulate_failure with
    | .raises msg =>
      (updStep e1 i (fun s =>
          { s with status := .failed
                   error_message := some msg
                   retry_count := s.retry_count + 1 }),
        st, false)
    | .succeeds out arts ctxs =>
      let e2 := { e1 with
        artifacts := e1.artifacts ++ arts
        context := ctxs.foldl (fun c kv => ctxSet c kv.1 kv.2) e1.context }
      let e3 := updStep e2 i (fun s => { s with output := out, status := .completed })
      if step.step_number % e.checkpoint_interval == 0 then
        let r := save_checkpoint h disk_ok e3 step.step_number st
        (updStep e3 i (fun s => { s with checkpoint_saved := r.2 }), r.1, true)
      else
        (e3, st, true)

/-- The one Python exception the engine itself can raise: the
`UnboundLocalError` of `recover_from_failure` when the downward scan loop body
never runs and line 259 reads the unassigned local `checkpoint`. -/
inductive PyError where
  | unboundLocal
deriving DecidableEq, Repr

/-- The downward scan of `recover_from_failure` (source lines 252-257):
`last_checkpoint_step` starts at `failed_step.step_number - 1` and decreases
while positive until a checkpoint loads.  Returns the final values of
`(last_checkpoint_step, checkpoint)` after the while loop, or `.error` when the
loop body never ran, in which case the local `checkpoint` is unassigned and
line 259 raises UnboundLocalError. -/
def scanForCheckpoint (st : Store) : Nat → Except PyError (Nat × Option CheckpointState)
  | 0 => .error .unboundLocal
  | k + 1 =>
    match load_checkpoint st (k + 1) with
    | some cp => .ok (k + 1, some cp)
    | none =>
      match k with
      | 0 => .ok (0, none)
      | k' + 1 => scanForCheckpoint st (k' + 1)

/-- Zero-padded rendering of the recovery event counter,
`f"recovery_{len(self.recovery_events) + 1:03d}"` (source line 265). -/
def pad3 (n : Nat) : String :=
  if n < 10 then "00" ++ toString n
  else if n < 100 then "0" ++ toString n
  else toString n

/-- `recover_from_failure` (source lines 247-309), acting on the failed step at
index `i`.  Scans down for the nearest checkpoint (252-257; crashes with
UnboundLocalError when the failed step is step 1, since the loop body never
runs and line 259 reads the unassigned `checkpoint`); returns False when the
scan exhausted without finding one (259-261).  Otherwise builds the recovery
event (264-274; its strategy is always CHECKPOINT_RECOVERY), restores from the
checkpoint (279), records the recovered artifacts and the compensating actions
computed from the failed step's error message (280-284), resets the step to
PENDING with no error (290-291), re-executes it with `simulate_failure=False`
(294), marks it RECOVERED and the event successful if the retry succeeded
(296-298), appends the event (305) and returns the retry result. -/
def recover_from_failure (h : StateData → String) (exec : ExecOracle)
    (disk_ok : Bool) (e : Engine) (st : Store) (i : Nat) :
    Except PyError (Engine × Store × Bool) :=
  match e.steps[i]? with
  | none => .ok (e, st, false)
  | some failed_step =>
    match scanForCheckpoint st (failed_step.step_number - 1) with
    | .error pe => .error pe
    | .ok (_, none) => .ok (e, st, false)
    | .ok (last_checkpoint_step, some checkpoint) =>
      let e1 := (restore_from_checkpoint e checkpoint).1
      let event : RecoveryEvent :=
        { event_id := "recovery_" ++ pad3 (e.recovery_events.length + 1)
          trigger := (failed_step.error_message.getD "None") ++ " at step " ++
            toString failed_step.step_number
          strategy := .checkpoint_recovery
          source_checkpoint := last_checkpoint_step
          success := false
          artifacts_recovered := checkpoint.artifacts
          compensating_actions :=
            apply_compensating_actions (failed_step.error_message.getD "None") }
      let e2 := updStep e1 i (fun s => { s with status := .pending, error_message := none })
      let r := execute_step h exec disk_ok e2 st i false
      let e3 := if r.2.2 then updStep r.1 i (fun s => { s with status := .recovered }) else r.1
      let e4 := { e3 with
        recovery_events := e3.recovery_events ++ [{ event with success := r.2.2 }] }
      .ok (e4, r.2.1, r.2.2)

/-- The per-step body and loop of `execute_workflow` (source lines 345-360),
indexed by remaining fuel (the step list's length never changes, so fuel
`e.steps.length - i` always suffices).  On a step failure with auto recovery
on: when the MUTATED step's retry_count is within max_retries, run recovery
and either continue or abort; past the ceiling or with recovery off, abort. -/
def runFrom (h : StateData → String) (exec : ExecOracle) (disk_ok : Bool)
    (simulate_failure : Bool) :
    Nat → Nat → Engine → Store → Except PyError (Engine × Store × Bool)
  | 0, _, e, st => .ok (e, st, true)
  | fuel + 1, i, e, st =>
    match e.steps[i]? with
    | none => .ok (e, st, true)
    | some step =>
      let r := execute_step h exec disk_ok e st i
        (simulate_failure && step.step_number == 2)
      if r.2.2 then
        runFrom h exec disk_ok simulate_failure fuel (i + 1) r.1 r.2.1
      else if r.1.auto_recovery then
        match r.1.steps[i]? with
        | none => .ok (r.1, r.2.1, false)
        | some step' =>
          if step'.retry_count ≤ r.1.max_retries then
            match recover_from_failure h exec disk_ok r.1 r.2.1 i with
            | .error pe => .error pe
            | .ok rr =>
              if rr.2.2 then
                runFrom h exec disk_ok simulate_failure fuel (i + 1) rr.1 rr.2.1
              else
                .ok (rr.1, rr.2.1, false)
          else
            .ok (r.1, r.2.1, false)
      else
        .ok (r.1, r.2.1, false)

/-- `execute_workflow` (source lines 338-364): one ordered pass over the steps,
executing each with `simulate_failure` asserted only for step number 2
(line 346), recovering on failure when allowed.  Returns True when every step
ends successfully, False on a clean abort, and an exception value when
`recover_from_failure` crashes. -/
def execute_workflow (h : StateData → String) (exec : ExecOracle)
    (disk_ok : Bool) (e : Engine) (simulate_failure : Bool) (st : Store) :
    Except PyError (Engine × Store × Bool) :=
  runFrom h exec disk_ok simulate_failure e.steps.length 0 e st

/-! ### Concrete fixtures used by the claim theorems, counterexamples and
witnesses -/

/-- Convenience constructor for a fresh workflow step, with every defaulted
dataclass field at its default. -/
def mkStep (n : Nat) (name agent input_data expected_output : String) :
    WorkflowStep :=
  { step_number := n
    name := name
    agent := agent
    input_data := input_data
    expected_output := expected_output }

/-- The digest recomputed from a checkpoint's OWN content (its workflow id,
context and artifacts), as the specification's integrity invariant and
round-trip property word it.  Refinement definition following the spec; to be
compared with what `load_integrity_warning` actually computes. -/
def recomputedDigest (h : StateData → String) (cp : CheckpointState) : String :=
  h (stateData cp.workflow_id cp.context cp.artifacts)

/-- A stored checkpoint that is internally consistent: its digest is the one
recomputed from its own content. -/
def c1Cp : CheckpointState :=
  { workflow_id := "wf-001"
    step_number := 1
    artifacts := ["CG_TDD_42.md"]
    context := [("feature", .str "csv_export")]
    completed_steps := [1]
    integrity_hash :=
      encodeState (stateData "wf-001" [("feature", .str "csv_export")] ["CG_TDD_42.md"]) }

/-- An engine at recovery time whose live context/artifacts differ from the
stored checkpoint's content (as they are expected to, during recovery). -/
def c1E : Engine := mkEngine "wf-001" []

/-- The checkpoint directory holding `c1Cp` at index 1. -/
def c1St : Store := [(1, c1Cp)]

/-- A three-step workflow body shared by several run fixtures. -/
def threeSteps : List WorkflowStep :=
  [ mkStep 1 "Project Analysis" "claude-agent-issue-analyzer" "issue_42" "CG_TDD_42.md",
    mkStep 2 "Test Planning" "claude-agent-test-planner" "CG_TDD_42.md" "CG_TDD_TESTS_42.md",
    mkStep 3 "Implementation" "claude-agent-tdd-implementer" "CG_TDD_42.md" "implementation_code" ]

/-- Engine for the claim about a first-step failure with no checkpoints. -/
def c2E : Engine := mkEngine "wf-c2" threeSteps

/-- An executor whose step 1 raises on every dispatch. -/
def c2Exec : ExecOracle := fun n _ =>
  if n == 1 then .raises "TIMEOUT: agent unavailable" else .succeeds none [] []

/-- Engine for the claim about a persistently failing step. -/
def c3E : Engine := mkEngine "wf-c3" threeSteps

/-- An executor for which step 2 raises on EVERY dispatch (including recovery
retries), while the other steps behave as the source's simulation. -/
def c3Exec : ExecOracle := fun n b =>
  if n == 2 then .raises "TIMEOUT: executor exceeded time budget" else mockExec n b

/-- The full run of the engine against the persistently failing step 2, with
the default `max_retries = 3` and a working disk. -/
def c3Run : Except PyError (Engine × Store × Bool) :=
  execute_workflow encodeState c3Exec true c3E false []

/-- Engine whose three steps are all pending, about to be restored. -/
def c4E : Engine := mkEngine "wf-c4" threeSteps

/-- A checkpoint at index 1 whose `completed_steps` also lists step 3 — an
index beyond the checkpoint's own. -/
def c4Cp : CheckpointState :=
  { workflow_id := "wf-c4"
    step_number := 1
    artifacts := []
    context := []
    completed_steps := [1, 3]
    integrity_hash := "d" }

/-- A checkpoint at index 1 available for recovery of a failed step 2. -/
def c5Cp : CheckpointState :=
  { workflow_id := "wf-c5"
    step_number := 1
    artifacts := ["CG_TDD_42.md"]
    context := [("feature", .str "csv_export")]
    completed_steps := [1]
    integrity_hash :=
      encodeState (stateData "wf-c5" [("feature", .str "csv_export")] ["CG_TDD_42.md"]) }

/-- An engine whose step 2 has just failed with a timeout-classified error. -/
def c5E : Engine :=
  { mkEngine "wf-c5"
      [ { mkStep 1 "Project Analysis" "a1" "issue_42" "CG_TDD_42.md" with
            status := .completed, checkpoint_saved := true },
        { mkStep 2 "Test Planning" "a2" "CG_TDD_42.md" "CG_TDD_TESTS_42.md" with
            status := .failed
            error_message := some "TIMEOUT: executor exceeded time budget"
            retry_count := 1 } ] with
    context := [("feature", .str "csv_export")]
    artifacts := ["CG_TDD_42.md"] }

/-- An executor whose every dispatch succeeds (the recovery retry will pass). -/
def c5Exec : ExecOracle := fun _ _ => .succeeds none [] []

/-- Recovery of the timeout-failed step 2 of `c5E`. -/
def c5Run : Except PyError (Engine × Store × Bool) :=
  recover_from_failure encodeState c5Exec true c5E [(1, c5Cp)] 1

/-- A single fresh step, for the attempt-counter claim. -/
def c6E : Engine :=
  mkEngine "wf-c6" [mkStep 1 "Project Analysis" "a1" "issue_42" "CG_TDD_42.md"]

/-- Two engines with distinct workflow ids sharing one checkpoint directory. -/
def c7A : Engine := mkEngine "wf-A" []

/-- The second engine sharing the directory with `c7A`. -/
def c7B : Engine := mkEngine "wf-B" []

/-- The shared directory after engine A saves at step index 1. -/
def c7St1 : Store := (save_checkpoint encodeState true c7A 1 []).1

/-- The shared directory after engine B then saves at the same step index 1. -/
def c7St2 : Store := (save_checkpoint encodeState true c7B 1 c7St1).1

/-- A one-step engine whose executor succeeds, for the persistence-error
claim's witness. -/
def c9E : Engine :=
  mkEngine "wf-c9" [mkStep 1 "Project Analysis" "a1" "issue_42" "CG_TDD_42.md"]

/-- An executor whose every dispatch succeeds with a fixed output. -/
def c9Exec : ExecOracle := fun _ _ =>
  .succeeds (some "CG_TDD_42.md - CSV export specification") ["CG_TDD_42.md"]
    [("feature", .str "csv_export")]

/-- An engine holding one completed step and one step that succeeded through
the recovery path (status RECOVERED). -/
def c10E : Engine :=
  { mkEngine "wf-c10"
      [ { mkStep 1 "Project Analysis" "a1" "issue_42" "CG_TDD_42.md" with
            status := .completed },
        { mkStep 2 "Test Planning" "a2" "CG_TDD_42.md" "CG_TDD_TESTS_42.md" with
            status := .recovered } ] with
    artifacts := ["CG_TDD_42.md"] }

/-! ### Helper lemmas -/

theorem listUpdate_length (l : List α) (i : Nat) (f : α → α) :
    (listUpdate l i f).length = l.length := by
  unfold listUpdate
  cases h : l[i]? <;> simp [h]

theorem listUpdate_getElem?_self (l : List α) (i : Nat) (f : α → α) :
    (listUpdate l i f)[i]? = l[i]?.map f := by
  unfold listUpdate
  cases h : l[i]? with
  | none => simp [h]
  | some a =>
    have hi : i < l.length := (List.getElem?_eq_some_iff.1 h).1
    simp [h, List.getElem?_set_self hi]

theorem lookup_write_self (st : Store) (n : Nat) (cp : CheckpointState) :
    (st.write n cp).lookup n = some cp := by
  simp [Store.write, Store.lookup]

theorem lookup_write_ne (st : Store) (n m : Nat) (cp : CheckpointState)
    (hnm : n ≠ m) : (st.write n cp).lookup m = st.lookup m := by
  simp [Store.write, Store.lookup, hnm]

theorem execute_step_recovery_events (h : StateData → String) (exec : ExecOracle)
    (disk_ok : Bool) (e : Engine) (st : Store) (i : Nat) (b : Bool) :
    (execute_step h exec disk_ok e st i b).1.recovery_events = e.recovery_events := by
  unfold execute_step
  cases hs : e.steps[i]? with
  | none => simp [hs]
  | some step =>
    cases hx : exec step.step_number b with
    | raises msg => simp [hs, hx, updStep]
    | succeeds out arts ctxs =>
      by_cases hm : (step.step_number % e.checkpoint_interval == 0) = true <;>
        simp [hs, hx, hm, updStep, save_checkpoint]

theorem execute_step_no_disk (h : StateData → String) (exec : ExecOracle)
    (e : Engine) (st : Store) (i : Nat) (b : Bool)
    (hall : ∀ n b', (exec n b').isRaise = false) :
    (execute_step h exec false e st i b).2 = (st, true) := by
  unfold execute_step
  cases hs : e.steps[i]? with
  | none => simp [hs]
  | some step =>
    cases hx : exec step.step_number b with
    | raises msg =>
      have hr := hall step.step_number b
      rw [hx] at hr
      simp [ExecResult.isRaise] at hr
    | succeeds out arts ctxs =>
      by_cases hm : (step.step_number % e.checkpoint_interval == 0) = true <;>
        simp [hs, hx, hm, save_checkpoint]

theorem runFrom_no_disk (h : StateData → String) (exec : ExecOracle)
    (simf : Bool) (hall : ∀ n b, (exec n b).isRaise = false) :
    ∀ (fuel i : Nat) (e : Engine) (st : Store),
      ∃ e', runFrom h exec false simf fuel i e st = .ok (e', st, true) := by
  intro fuel
  induction fuel with
  | zero => exact fun i e st => ⟨e, rfl⟩
  | succ fuel ih =>
    intro i e st
    unfold runFrom
    cases hs : e.steps[i]? with
    | none => exact ⟨e, by simp [hs]⟩
    | some step =>
      have h2 := execute_step_no_disk h exec e st i (simf && step.step_number == 2) hall
      have h22 : (execute_step h exec false e st i (simf && step.step_number == 2)).2.2 = true := by
        rw [h2]
      have h21 : (execute_step h exec false e st i (simf && step.step_number == 2)).2.1 = st := by
        rw [h2]
      obtain ⟨e', he'⟩ :=
        ih (i + 1) (execute_step h exec false e st i (simf && step.step_number == 2)).1 st
      refine ⟨e', ?_⟩
      simp only [hs, h22, h21, if_true]
      exact he'

/-! ### Claim C1 -/

/-- C1 counterexample: the stored checkpoint `c1Cp` is internally consistent (a
digest recomputed from its OWN context/artifacts equals its stored digest), yet
the comparison `load_checkpoint` performs reports a mismatch, because the code
recomputes the digest from the live engine state (`self.context`,
`self.artifacts`) rather than from the loaded checkpoint's content.  Hence the
load-time comparison is NOT a recomputation from the checkpoint's own state, as
the claim asserts. -/
theorem c1_counterexample :
    recomputedDigest encodeState c1Cp = c1Cp.integrity_hash ∧
    load_integrity_warning encodeState c1E 1 c1St ≠
      (load_checkpoint c1St 1).map
        (fun cp => recomputedDigest encodeState cp != cp.integrity_hash) := by
  constructor
  · rfl
  · decide

/-- C1 (amended): the integrity digest comparison performed at load time
recomputes the digest from the CURRENT LIVE engine state and compares it with
the digest stored in the checkpoint; on mismatch the checkpoint is still
returned, with only a warning, rather than a failure. -/
theorem c1_amended (h : StateData → String) (e : Engine) (st : Store) (n : Nat)
    (cp : CheckpointState) (hcp : load_checkpoint st n = some cp)
    (hmm : calculate_integrity_hash h e ≠ cp.integrity_hash) :
    load_checkpoint st n = some cp ∧
    load_integrity_warning h e n st = some true := by
  refine ⟨hcp, ?_⟩
  unfold load_checkpoint at hcp
  simp [load_integrity_warning, hcp, hmm]

/-- C1 witness: the amended theorem applied at the concrete mismatching
state. -/
theorem c1_amended_witness :
    load_checkpoint c1St 1 = some c1Cp ∧
    load_integrity_warning encodeState c1E 1 c1St = some true :=
  c1_amended encodeState c1E c1St 1 c1Cp (by decide) (by decide)

/-! ### Claim C4 -/

/-- C4 counterexample: restoring `c4E` from the checkpoint `c4Cp` at index 1,
whose `completed_steps` lists step 3, leaves step 3 COMPLETED: the membership
check comes first in the if/elif of `restore_from_checkpoint`, so an index
listed in `completed_steps` is never reset to PENDING even when it exceeds the
checkpoint's own index — contradicting the claim that every step with index
greater than k is reset to Pending. -/
theorem c4_counterexample :
    ((restore_from_checkpoint c4E c4Cp).1.steps.map (fun s => s.status))
      = [.completed, .pending, .completed] ∧
    ¬ (∀ s ∈ (restore_from_checkpoint c4E c4Cp).1.steps,
        c4Cp.step_number < s.step_number → s.status = .pending) := by
  constructor
  · decide
  · decide

/-- C4 (amended): after a restore from a checkpoint at index k, every step
whose index is greater than k and NOT listed in the checkpoint's
`completed_steps` is reset to Pending, while a step listed in
`completed_steps` is marked Completed even when its index exceeds k. -/
theorem c4_amended (e : Engine) (cp : CheckpointState) (i : Nat)
    (s : WorkflowStep) (hs : e.steps[i]? = some s)
    (hk : cp.step_number < s.step_number) :
    ((restore_from_checkpoint e cp).1.steps[i]?).map (fun t => t.status)
      = some (if cp.completed_steps.contains s.step_number then
                StepStatus.completed
              else StepStatus.pending) := by
  simp [restore_from_checkpoint, hs, hk]
  split <;> rfl

/-- C4 witness: the amended theorem applied to step 3 (index 2) of the
concrete fixture, an index beyond the checkpoint's own but listed as
completed. -/
theorem c4_amended_witness :
    ((restore_from_checkpoint c4E c4Cp).1.steps[2]?).map (fun t => t.status)
      = some (if c4Cp.completed_steps.contains 3 then StepStatus.completed
              else StepStatus.pending) :=
  c4_amended c4E c4Cp 2 (mkStep 3 "Implementation" "claude-agent-tdd-implementer"
    "CG_TDD_42.md" "implementation_code") (by decide) (by decide)

/-! ### Claim C6 -/

/-- C6 counterexample: a step that succeeds on its first dispatch ends with
`retry_count = 0`, not 1 — the counter is only incremented in the except branch
(source line 242), never on dispatch. -/
theorem c6_counterexample :
    (execute_step encodeState mockExec true c6E [] 0 false).2.2 = true ∧
    ((execute_step encodeState mockExec true c6E [] 0 false).1.steps.map
        (fun s => s.retry_count)) = [0] ∧
    ((execute_step encodeState mockExec true c6E [] 0 false).1.steps.map
        (fun s => s.retry_count)) ≠ [1] := by
  refine ⟨?_, ?_, ?_⟩ <;> decide

/-- C6 (amended): the attempt counter starts at 0 (the dataclass default) and
is incremented exactly once on each FAILED dispatch (the except branch);
a dispatch that succeeds leaves it unchanged, so a step that succeeds on its
first dispatch ends with attempt equal to 0. -/
theorem c6_amended (h : StateData → String) (exec : ExecOracle) (disk_ok : Bool)
    (e : Engine) (st : Store) (i : Nat) (simf : Bool) (s : WorkflowStep)
    (hs : e.steps[i]? = some s) :
    ((execute_step h exec disk_ok e st i simf).1.steps[i]?).map
        (fun t => t.retry_count)
      = some (match exec s.step_number simf with
              | .raises _ => s.retry_count + 1
              | .succeeds _ _ _ => s.retry_count) := by
  unfold execute_step
  cases hx : exec s.step_number simf with
  | raises msg =>
    simp [hs, hx, updStep, listUpdate_getElem?_self]
  | succeeds out arts ctxs =>
    by_cases hm : (s.step_number % e.checkpoint_interval == 0) = true <;>
      simp [hs, hx, hm, updStep, listUpdate_getElem?_self, save_checkpoint]

/-- C6 witness: the amended theorem applied to a fresh step whose dispatch
raises, giving final attempt count 1 = 0 + 1. -/
theorem c6_amended_witness :
    ((execute_step encodeState (fun _ _ => ExecResult.raises "TIMEOUT: x") true
        c6E [] 0 false).1.steps[0]?).map (fun t => t.retry_count) = some 1 :=
  c6_amended encodeState (fun _ _ => ExecResult.raises "TIMEOUT: x") true
    c6E [] 0 false (mkStep 1 "Project Analysis" "a1" "issue_42" "CG_TDD_42.md")
    (by decide)

/-! ### Claim C7 -/

/-- C7 counterexample: two engines with distinct workflow ids share one
checkpoint directory; after engine B saves at step index 1, the record engine A
had saved there is gone (the file key `step_1_state.json` carries no workflow
id), and a load of index 1 — by either engine — returns the checkpoint saved
under B's workflow id.  This contradicts both halves of the claim. -/
theorem c7_counterexample :
    ((load_checkpoint c7St1 1).map (fun cp => cp.workflow_id) = some "wf-A") ∧
    ((load_checkpoint c7St2 1).map (fun cp => cp.workflow_id) = some "wf-B") ∧
    load_checkpoint c7St2 1 ≠ load_checkpoint c7St1 1 := by
  refine ⟨?_, ?_, ?_⟩ <;> decide

/-- C7 (amended): checkpoint records are keyed by stepIndex ALONE (the file is
`step_{n}_state.json`, with no workflow id in the key): a Save at index n
overwrites the record at n regardless of which workflow id wrote it, leaves
the record at every other index unchanged, and a Load at n returns the latest
record at that index regardless of workflow id. -/
theorem c7_amended (h : StateData → String) (eB : Engine) (n m : Nat)
    (st : Store) (hnm : n ≠ m) :
    load_checkpoint (save_checkpoint h true eB n st).1 m = load_checkpoint st m ∧
    (load_checkpoint (save_checkpoint h true eB n st).1 n).map
        (fun cp => cp.workflow_id) = some eB.workflow_id := by
  refine ⟨?_, ?_⟩
  · simp [save_checkpoint, load_checkpoint, lookup_write_ne _ _ _ _ hnm]
  · simp [save_checkpoint, load_checkpoint, lookup_write_self, checkpointStateOf]

/-- C7 witness: the amended theorem applied to engine B writing index 1 over
the store already holding engine A's record, with untouched index 2. -/
theorem c7_amended_witness :
    load_checkpoint (save_checkpoint encodeState true c7B 1 c7St1).1 2
        = load_checkpoint c7St1 2 ∧
    (load_checkpoint (save_checkpoint encodeState true c7B 1 c7St1).1 1).map
        (fun cp => cp.workflow_id) = some "wf-B" :=
  c7_amended encodeState c7B 1 2 c7St1 (by decide)

/-! ### Claim C8 -/

/-- C8 (confirmed): loading the checkpoint just produced by Save returns a
record equal to the one saved — same workflow id, step index, completed
indices, context and artifacts as the engine being checkpointed, and the same
digest — and a digest recomputed from that record's OWN content equals the
stored digest. -/
theorem c8_round_trip (h : StateData → String) (e : Engine) (n : Nat)
    (st : Store) :
    (save_checkpoint h true e n st).2 = true ∧
    load_checkpoint (save_checkpoint h true e n st).1 n
      = some (checkpointStateOf h e n) ∧
    (checkpointStateOf h e n).workflow_id = e.workflow_id ∧
    (checkpointStateOf h e n).step_number = n ∧
    (checkpointStateOf h e n).context = e.context ∧
    (checkpointStateOf h e n).artifacts = e.artifacts ∧
    recomputedDigest h (checkpointStateOf h e n)
      = (checkpointStateOf h e n).integrity_hash := by
  refine ⟨rfl, ?_, rfl, rfl, rfl, rfl, rfl⟩
  simp [save_checkpoint, load_checkpoint, lookup_write_self]

/-! ### Claim C10 -/

/-- C10 (confirmed): a checkpoint saved while a step's status is RECOVERED
omits that step's index from its `completed_steps`: `save_checkpoint` collects
only steps whose status is exactly COMPLETED at save time, so a step that
succeeded via the recovery path is never recorded as durably complete in any
later checkpoint.  (Step numbers are assumed pairwise distinct, as the data
model requires.) -/
theorem c10_recovered_not_completed (h : StateData → String) (e : Engine)
    (st : Store) (n i : Nat) (s : WorkflowStep) (cp : CheckpointState)
    (hs : e.steps[i]? = some s) (hrec : s.status = .recovered)
    (hnd : (e.steps.map (fun t => t.step_number)).Nodup)
    (hcp : load_checkpoint (save_checkpoint h true e n st).1 n = some cp) :
    s.step_number ∉ cp.completed_steps := by
  have hcp' : cp = checkpointStateOf h e n := by
    simp [save_checkpoint, load_checkpoint, lookup_write_self] at hcp
    exact hcp.symm
  subst hcp'
  intro hmem
  simp only [checkpointStateOf, List.mem_map, List.mem_filter] at hmem
  obtain ⟨t, ⟨htmem, htc⟩, htn⟩ := hmem
  have hsmem : s ∈ e.steps := List.getElem?_mem hs
  have hts : t = s := List.inj_on_of_nodup_map hnd htmem hsmem htn
  rw [hts] at htc
  rw [hrec] at htc
  simp at htc

/-- C10 witness: the theorem applied to the concrete engine `c10E`, whose step
2 is RECOVERED: the checkpoint saved at index 2 omits index 2 from its
completed steps. -/
theorem c10_recovered_not_completed_witness :
    (2 : Nat) ∉ (checkpointStateOf encodeState c10E 2).completed_steps :=
  c10_recovered_not_completed encodeState c10E [] 2 1
    ({ mkStep 2 "Test Planning" "a2" "CG_TDD_42.md" "CG_TDD_TESTS_42.md" with
        status := .recovered })
    (checkpointStateOf encodeState c10E 2)
    (by decide) rfl (by decide)
    (by simp [save_checkpoint, load_checkpoint, lookup_write_self])

/-! ### Claim C2 -/

/-- C2 (code evaluated at the failing input): when step 1 of a three-step
workflow fails with no checkpoint in the store, the engine enters
`recover_from_failure`, whose downward scan starts at `step_number - 1 = 0`,
so the while-loop body never runs; line 259 then reads the unassigned local
`checkpoint` and the whole run crashes with UnboundLocalError — instead of
aborting with the clean NoValidCheckpoint failure the claim describes. -/
theorem c2_crash_eval :
    execute_workflow encodeState c2Exec true c2E false []
      = Except.error PyError.unboundLocal ∧
    scanForCheckpoint [] (1 - 1) = Except.error PyError.unboundLocal := by
  exact ⟨rfl, rfl⟩

/-! ### Claim C3 -/

/-- C3 counterexample: against an executor whose step 2 raises on every
dispatch, with the default `maxRetries = 3`, the run aborts after only TWO
dispatches of step 2 (the initial one plus the single recovery retry): the
final attempt count is 2, not 4, and exactly one recovery event is recorded,
not one per retry cycle up to the limit. -/
theorem c3_counterexample :
    (c3Run.toOption.map (fun r => r.1.steps.map (fun s => s.retry_count)))
      = some [0, 2, 0] ∧
    (c3Run.toOption.map (fun r => r.1.steps.map (fun s => s.retry_count)))
      ≠ some [0, 4, 0] ∧
    (c3Run.toOption.map (fun r => r.1.recovery_events.length)) = some 1 := by
  refine ⟨?_, ?_, ?_⟩ <;> decide

/-- C3 (amended): for a step that fails on every dispatch with
`maxRetries = 3`, the run aborts cleanly (returns False) at that step after
exactly two dispatches: the step's final attempt count equals 2, its status is
Failed, exactly one recovery event is recorded, and that event has
`success = false`. -/
theorem c3_amended :
    ∃ r, c3Run = .ok r ∧ r.2.2 = false ∧
      (r.1.steps.map (fun s => s.retry_count)) = [0, 2, 0] ∧
      (r.1.steps.map (fun s => s.status))
        = [.completed, .failed, .pending] ∧
      (r.1.recovery_events.map (fun ev => ev.success)) = [false] := by
  refine ⟨_, rfl, ?_, ?_, ?_, ?_⟩ <;> decide

/-! ### Claim C5 -/

/-- C5 counterexample: recovering a step that failed with a timeout-classified
error records a recovery event whose strategy is CHECKPOINT_RECOVERY, not the
RetryWithFallback the claim's table promises: the strategy field is hardcoded
at event creation (source line 268) regardless of the error class. -/
theorem c5_counterexample :
    (c5Run.toOption.map (fun r => r.1.recovery_events.map (fun ev => ev.strategy)))
      = some [.checkpoint_recovery] ∧
    (c5Run.toOption.map (fun r => r.1.recovery_events.map (fun ev => ev.strategy)))
      ≠ some [.retry_with_fallback] := by
  refine ⟨?_, ?_⟩ <;> decide

/-- C5 (amended): classification by substring matching always returns a plan
and yields the compensating actions of the table — a timeout-classified error
(contains "TIMEOUT", not "VALIDATION_ERROR") yields the fallback-executor
actions, a dependency-classified error yields the dependency actions, and when
no known substring matches the default class yields an empty action list — but
the STRATEGY recorded on every recovery event the engine ever appends is
CheckpointRecovery, regardless of the error class: RetryWithFallback and
CompensatingAction are never selected. -/
theorem c5_amended :
    (∀ msg, strContains msg "TIMEOUT" = true →
      strContains msg "VALIDATION_ERROR" = false →
      apply_compensating_actions msg
        = ["switch_to_fallback_agent", "reduce_complexity"]) ∧
    (∀ msg, strContains msg "DEPENDENCY" = true →
      strContains msg "VALIDATION_ERROR" = false →
      strContains msg "TIMEOUT" = false →
      apply_compensating_actions msg
        = ["regenerate_dependencies", "validate_prerequisites"]) ∧
    (∀ msg, strContains msg "VALIDATION_ERROR" = false →
      strContains msg "TIMEOUT" = false →
      strContains msg "DEPENDENCY" = false →
      apply_compensating_actions msg = []) ∧
    (∀ (h : StateData → String) (exec : ExecOracle) (d : Bool) (e : Engine)
        (st : Store) (i : Nat) (r : Engine × Store × Bool),
      recover_from_failure h exec d e st i = .ok r →
      ∀ ev ∈ r.1.recovery_events,
        ev ∈ e.recovery_events ∨ ev.strategy = .checkpoint_recovery) := by
  refine ⟨?_, ?_, ?_, ?_⟩
  · intro msg h1 h2
    simp [apply_compensating_actions, h1, h2]
  · intro msg h1 h2 h3
    simp [apply_compensating_actions, h1, h2, h3]
  · intro msg h1 h2 h3
    simp [apply_compensating_actions, h1, h2, h3]
  · intro h exec d e st i r hr ev hev
    unfold recover_from_failure at hr
    split at hr
    · cases hr
      exact Or.inl hev
    · split at hr
      · cases hr
      · cases hr
        exact Or.inl hev
      · cases hr
        have hpres :
            ∀ (e' : Engine) (j : Nat),
              ((if (execute_step h exec d (updStep e' j (fun s =>
                    { s with status := .pending, error_message := none })) st i false).2.2
                then updStep (execute_step h exec d (updStep e' j (fun s =>
                    { s with status := .pending, error_message := none })) st i false).1 i
                  (fun s => { s with status := .recovered })
                else (execute_step h exec d (updStep e' j (fun s =>
                    { s with status := .pending, error_message := none })) st i false).1)).recovery_events
              = e'.recovery_events := by
          intro e' j
          split <;> simp [updStep, execute_step_recovery_events]
        simp only [restore_from_checkpoint] at hev
        rw [hpres] at hev
        simp only [List.mem_append, List.mem_singleton] at hev
        rcases hev with hev | hev
        · exact Or.inl hev
        · subst hev
          exact Or.inr rfl

/-- C5 witness: the amended theorem applied to concrete timeout, dependency
and unknown error messages, and to the concrete recovery run of the
timeout-failed step. -/
theorem c5_amended_witness :
    apply_compensating_actions "TIMEOUT: executor exceeded time budget"
      = ["switch_to_fallback_agent", "reduce_complexity"] ∧
    apply_compensating_actions "DEPENDENCY: prerequisite artifact missing"
      = ["regenerate_dependencies", "validate_prerequisites"] ∧
    apply_compensating_actions "some unclassified failure" = [] :=
  ⟨c5_amended.1 _ (by decide) (by decide),
   c5_amended.2.1 _ (by decide) (by decide) (by decide),
   c5_amended.2.2.1 _ (by decide) (by decide) (by decide)⟩

/-! ### Claim C9 -/

/-- C9 (confirmed): when a step's executor succeeds but the checkpoint write
fails with a persistence error, the failure is swallowed: the step's status is
COMPLETED in memory, its `checkpoint_saved` flag is false, `execute_step`
still reports success (the step is not treated as failed) and leaves the store
unchanged, and a whole workflow run under an always-succeeding executor with a
failing disk still completes every step and returns success. -/
theorem c9_persistence_error_swallowed (h : StateData → String)
    (exec : ExecOracle) (e : Engine) (st : Store) (i : Nat) (simf : Bool)
    (s : WorkflowStep) (out : Option String) (arts : List String)
    (ctxs : List (String × JsonVal))
    (hs : e.steps[i]? = some s)
    (hx : exec s.step_number simf = .succeeds out arts ctxs)
    (hdiv : (s.step_number % e.checkpoint_interval == 0) = true)
    (hall : ∀ n b, (exec n b).isRaise = false) :
    ((execute_step h exec false e st i simf).1.steps[i]?).map
        (fun t => (t.status, t.checkpoint_saved))
      = some (StepStatus.completed, false) ∧
    (execute_step h exec false e st i simf).2 = (st, true) ∧
    ∃ e', execute_workflow h exec false e simf st = .ok (e', st, true) := by
  refine ⟨?_, execute_step_no_disk h exec e st i simf hall,
    runFrom_no_disk h exec simf hall e.steps.length 0 e st⟩
  unfold execute_step
  simp [hs, hx, hdiv, updStep, listUpdate_getElem?_self, save_checkpoint]

/-- C9 witness: the theorem applied to the one-step engine `c9E` with an
always-succeeding executor and a failing disk. -/
theorem c9_persistence_error_swallowed_witness :
    ((execute_step encodeState c9Exec false c9E [] 0 false).1.steps[0]?).map
        (fun t => (t.status, t.checkpoint_saved))
      = some (StepStatus.completed, false) ∧
    (execute_step encodeState c9Exec false c9E [] 0 false).2 = ([], true) ∧
    ∃ e', execute_workflow encodeState c9Exec false c9E false []
      = .ok (e', [], true) :=
  c9_persistence_error_swallowed encodeState c9Exec c9E [] 0 false
    (mkStep 1 "Project Analysis" "a1" "issue_42" "CG_TDD_42.md")
    (some "CG_TDD_42.md - CSV export specification") ["CG_TDD_42.md"]
    [("feature", .str "csv_export")]
    (by decide) rfl (by decide) (fun n b => rfl)

end WCR
